import Mathlib

/-!
Verification of the bridge-data library in bridge_functions.py.

A bridge record is the Python list of fields, embedded here as a structure
with one named field per positional index (ID_INDEX, NAME_INDEX, ... per
constants.py).  Numeric fields are rationals; all distances that the source
manipulates are haversine results rounded to three decimals, hence rational
values, so the query and assignment layer is embedded parametrically over a
rational-valued distance function.  The haversine itself (calculate_distance)
is embedded separately over the reals.
-/

namespace Bridge

/-- A rational-valued distance oracle standing for calculate_distance:
the source's distances are haversine values rounded to 3 decimals, so every
comparison the query layer performs is between rationals. -/
abbrev Dist : Type := ℚ → ℚ → ℚ → ℚ → ℚ

/-- One bridge record; the fields, in order, mirror the positional indices
ID_INDEX .. BCIS_INDEX used by the source on its list representation. -/
structure BridgeRecord where
  id : ℤ
  name : String
  highway : String
  lat : ℚ
  lon : ℚ
  year : String
  lastMajor : String
  lastMinor : String
  spanCount : ℤ
  spans : List ℚ
  length : ℚ
  lastInspected : String
  bcis : List ℚ
deriving DecidableEq

/-- First record of the reference set THREE_BRIDGES. -/
def bridge1 : BridgeRecord :=
  { id := 1, name := "Highway 24 Underpass at Highway 403", highway := "403",
    lat := 43.167233, lon := -80.275567, year := "1965", lastMajor := "2014",
    lastMinor := "2009", spanCount := 4, spans := [12.0, 19.0, 21.0, 12.0],
    length := 65.0, lastInspected := "04/13/2012",
    bcis := [72.3, 69.5, 70.0, 70.3, 70.5, 70.7, 72.9] }

/-- Second record of the reference set THREE_BRIDGES. -/
def bridge2 : BridgeRecord :=
  { id := 2, name := "WEST STREET UNDERPASS", highway := "403",
    lat := 43.164531, lon := -80.251582, year := "1963", lastMajor := "2014",
    lastMinor := "2007", spanCount := 4, spans := [12.2, 18.0, 18.0, 12.2],
    length := 61.0, lastInspected := "04/13/2012",
    bcis := [71.5, 68.1, 69.0, 69.4, 69.4, 70.3, 73.3] }

/-- Third record of the reference set THREE_BRIDGES. -/
def bridge3 : BridgeRecord :=
  { id := 3, name := "STOKES RIVER BRIDGE", highway := "6",
    lat := 45.036739, lon := -81.33579, year := "1958", lastMajor := "2013",
    lastMinor := "", spanCount := 1, spans := [16.0],
    length := 18.4, lastInspected := "08/28/2013",
    bcis := [85.1, 67.8, 67.4, 69.2, 70.0, 70.5, 75.1, 90.1] }

/-- The cleaned reference data set THREE_BRIDGES of the source. -/
def THREE_BRIDGES : List BridgeRecord := [bridge1, bridge2, bridge3]

/-- Python list indexing: a negative index counts from the end, and an index
outside the range raises IndexError (here: none). -/
def pyIndex {α : Type} (l : List α) (i : ℤ) : Option α :=
  if 0 ≤ i then l.get? i.toNat
  else if 0 ≤ (l.length : ℤ) + i then l.get? ((l.length : ℤ) + i).toNat
  else none

/-- Python slicing lst[:k]: for nonnegative k the first k elements (all of
them when k exceeds the length); for negative k all but the last -k elements
(empty when -k exceeds the length). -/
def pySliceTo {α : Type} (l : List α) (k : ℤ) : List α :=
  if 0 ≤ k then l.take k.toNat else l.take ((l.length : ℤ) + k).toNat

/-- Python string slicing s[a:b] for 0 ≤ a ≤ b: clamps to the string length
and never raises. -/
def pySlice (s : String) (a b : ℕ) : String :=
  String.mk ((s.toList.drop a).take (b - a))

/-- Numeric value of a digit list, most significant first. -/
def digitsVal (cs : List Char) : ℕ :=
  cs.foldl (fun acc c => 10 * acc + (c.toNat - 48)) 0

/-- Unsigned decimal literal of Python float(), on the grammar the data set
uses: digits with an optional fractional part.  Anything else (in
particular the empty string) raises ValueError, here none. -/
def pyFloatUnsigned (cs : List Char) : Option ℚ :=
  match cs.splitOn '.' with
  | [ip] =>
      if ip ≠ [] ∧ ip.all Char.isDigit then some (digitsVal ip) else none
  | [ip, fp] =>
      if (ip ≠ [] ∨ fp ≠ []) ∧ ip.all Char.isDigit ∧ fp.all Char.isDigit
      then some ((digitsVal ip : ℚ) + (digitsVal fp : ℚ) / (10 ^ fp.length))
      else none
  | _ => none

/-- Python float() on a string, on the decimal grammar the data set uses;
float of the empty string raises ValueError, modelled as none. -/
def pyFloat (s : String) : Option ℚ :=
  match s.toList with
  | [] => none
  | '-' :: rest => (pyFloatUnsigned rest).map (fun q => -q)
  | cs => pyFloatUnsigned cs

/-- The guard of format_length compares the whole record, a Python list, with
the empty string; a list never equals a string, so the test is always True. -/
def record_ne_empty_string : Bool := true

/-- Embeds format_length, acting on the total_length cell of a raw row: the
source tests the whole record against the empty string (always True, see
record_ne_empty_string), so it always runs float() on the cell; the else
branch that would store 0.0 is unreachable. -/
def format_length (lengthCell : String) : Option ℚ :=
  if record_ne_empty_string then pyFloat lengthCell else some 0

/-- Embeds get_average_bci: first record whose id matches; on a match the
source divides by len(bcis), a ZeroDivisionError (none) when the history is
empty; 0 when no record matches. -/
def get_average_bci (bridge_data : List BridgeRecord) (bridge_id : ℤ) :
    Option ℚ :=
  match bridge_data with
  | [] => some 0
  | b :: rest =>
      if b.id = bridge_id then
        if b.bcis.length = 0 then none
        else some (b.bcis.sum / (b.bcis.length : ℚ))
      else get_average_bci rest bridge_id

/-- Embeds get_distance_between: the distance oracle applied to the two
records' coordinates, first record first. -/
def get_distance_between (dist : Dist) (b1 b2 : BridgeRecord) : ℚ :=
  dist b1.lat b1.lon b2.lat b2.lon

/-- Loop of get_closest_bridge: iterates i over range(len(data) - 1) carrying
the best distance so far (none standing for the initial float inf) and the
best id so far; each candidate row with a different id is compared against
data[bridge_id] - the source indexes the data by the id itself, so an id
outside the index range raises IndexError (none overall). -/
def gcb_go (dist : Dist) (data : List BridgeRecord) (bridge_id : ℤ) :
    List ℕ → Option ℚ × ℤ → Option (Option ℚ × ℤ)
  | [], st => some st
  | i :: is, (d, index) =>
      match data.get? i with
      | none => gcb_go dist data bridge_id is (d, index)
      | some bi =>
          if bi.id = bridge_id then gcb_go dist data bridge_id is (d, index)
          else
            match pyIndex data bridge_id with
            | none => none
            | some btarget =>
                let dd := get_distance_between dist bi btarget
                if (match d with | none => true | some v => decide (dd < v))
                then gcb_go dist data bridge_id is (some dd, bi.id)
                else gcb_go dist data bridge_id is (d, index)

/-- Embeds get_closest_bridge: d starts at inf (none), index at 0, and the
loop runs over range(len(bridge_data) - 1). -/
def get_closest_bridge (dist : Dist) (data : List BridgeRecord)
    (bridge_id : ℤ) : Option ℤ :=
  (gcb_go dist data bridge_id (List.range (data.length - 1))
      ((none : Option ℚ), 0)).map Prod.snd

/-- Loop of get_bridges_in_radius: appends the id of every record whose
distance to the query point is at most the radius, in data order. -/
def in_radius_go (dist : Dist) (latitude longtitude radius : ℚ) :
    List BridgeRecord → List ℤ
  | [] => []
  | b :: bs =>
      if dist b.lat b.lon latitude longtitude ≤ radius
      then b.id :: in_radius_go dist latitude longtitude radius bs
      else in_radius_go dist latitude longtitude radius bs

/-- Embeds get_bridges_in_radius. -/
def get_bridges_in_radius (dist : Dist) (data : List BridgeRecord)
    (latitude longtitude radius : ℚ) : List ℤ :=
  in_radius_go dist latitude longtitude radius data

/-- Embeds inspect_bridges: every record whose id is listed gets the new
inspection date, and the new BCI is inserted at position 0 of its history;
every other record and every other field is untouched. -/
def inspect_bridges (data : List BridgeRecord) (bridge_ids : List ℤ)
    (date : String) (bci : ℚ) : List BridgeRecord :=
  match data with
  | [] => []
  | b :: bs =>
      (if b.id ∈ bridge_ids
       then { b with lastInspected := date, bcis := bci :: b.bcis }
       else b) :: inspect_bridges bs bridge_ids date bci

/-- Embeds add_rehab: rehab_year[6:10] is stored into the major-rehab field
when the flag is true and into the minor-rehab field otherwise, for every
record whose id matches; string slicing never raises. -/
def add_rehab (data : List BridgeRecord) (bridge_id : ℤ) (rehab_year : String)
    (rehab : Bool) : List BridgeRecord :=
  match data with
  | [] => []
  | b :: bs =>
      (if b.id = bridge_id
       then (if rehab then { b with lastMajor := pySlice rehab_year 6 10 }
             else { b with lastMinor := pySlice rehab_year 6 10 })
       else b) :: add_rehab bs bridge_id rehab_year rehab

/-- Modelled from the spec: the policy constants of constants.py are not in
src; the spec fixes only that there are three ascending priority radii and
two BCI tier thresholds, so the assignment layer is parametrised by this
configuration record. -/
structure Config where
  hp_radius : ℚ
  mp_radius : ℚ
  lp_radius : ℚ
  hp_bci : ℚ
  mp_bci : ℚ

/-- Current BCI of a record, bcis[0].  The source subscripts the history
directly, so a record with an empty history raises; theorems about BCI values
therefore assume nonempty histories, matching the data-model invariant. -/
def bci0 (b : BridgeRecord) : ℚ := b.bcis.headI

/-- The source also tests bridge id not in inspector_assignments; that
accumulator is a list of lists of ids, and an integer never equals a list in
Python, so the membership test is always False and the conjunct always
True. -/
def not_in_assignments : Bool := true

/-- High-priority tier predicate of assign_inspectors: still in the pool, in
the high-priority radius of the inspector, and current BCI at most the
high-priority threshold. -/
def hp_pred (dist : Dist) (cfg : Config) (data : List BridgeRecord)
    (ilat ilon : ℚ) (pool : List ℤ) (b : BridgeRecord) : Bool :=
  if b.id ∈ pool ∧ not_in_assignments = true
     ∧ b.id ∈ get_bridges_in_radius dist data ilat ilon cfg.hp_radius
     ∧ bci0 b ≤ cfg.hp_bci
  then true else false

/-- Medium-priority tier predicate: still in the pool, in the medium radius,
and high threshold < current BCI ≤ medium threshold. -/
def mp_pred (dist : Dist) (cfg : Config) (data : List BridgeRecord)
    (ilat ilon : ℚ) (pool : List ℤ) (b : BridgeRecord) : Bool :=
  if b.id ∈ pool ∧ not_in_assignments = true
     ∧ b.id ∈ get_bridges_in_radius dist data ilat ilon cfg.mp_radius
     ∧ cfg.hp_bci < bci0 b ∧ bci0 b ≤ cfg.mp_bci
  then true else false

/-- Low-priority tier predicate: still in the pool, in the low radius, and
current BCI above the medium threshold. -/
def lp_pred (dist : Dist) (cfg : Config) (data : List BridgeRecord)
    (ilat ilon : ℚ) (pool : List ℤ) (b : BridgeRecord) : Bool :=
  if b.id ∈ pool ∧ not_in_assignments = true
     ∧ b.id ∈ get_bridges_in_radius dist data ilat ilon cfg.lp_radius
     ∧ cfg.mp_bci < bci0 b
  then true else false

/-- bridges_to_assign of one inspector: the three tier comprehensions over
the data, concatenated high, then medium, then low. -/
def stepCandidates (dist : Dist) (cfg : Config) (data : List BridgeRecord)
    (pool : List ℤ) (ilat ilon : ℚ) : List BridgeRecord :=
  data.filter (hp_pred dist cfg data ilat ilon pool)
    ++ data.filter (mp_pred dist cfg data ilat ilon pool)
    ++ data.filter (lp_pred dist cfg data ilat ilon pool)

/-- One inspector's turn: slice the concatenated candidates with
[:max_bridges], emit the assigned ids, and filter them out of the pool. -/
def assign_step (dist : Dist) (cfg : Config) (data : List BridgeRecord)
    (max_bridges : ℤ) (pool : List ℤ) (insp : ℚ × ℚ) : List ℤ × List ℤ :=
  let assigned_ids :=
    (pySliceTo (stepCandidates dist cfg data pool insp.1 insp.2)
        max_bridges).map (fun b => b.id)
  (assigned_ids, pool.filter (fun i => decide (i ∉ assigned_ids)))

/-- The per-inspector loop of assign_inspectors over the shrinking pool. -/
def assign_loop (dist : Dist) (cfg : Config) (data : List BridgeRecord)
    (max_bridges : ℤ) : List (ℚ × ℚ) → List ℤ → List (List ℤ)
  | [], _pool => []
  | insp :: rest, pool =>
      (assign_step dist cfg data max_bridges pool insp).1
        :: assign_loop dist cfg data max_bridges rest
            (assign_step dist cfg data max_bridges pool insp).2

/-- Embeds assign_inspectors: the pool starts as the list of all ids, and
each inspector is served in input order. -/
def assign_inspectors (dist : Dist) (cfg : Config)
    (data : List BridgeRecord) (inspectors : List (ℚ × ℚ))
    (max_bridges : ℤ) : List (List ℤ) :=
  assign_loop dist cfg data max_bridges inspectors (data.map (fun b => b.id))

/-- Degrees to radians, as Python math.radians. -/
noncomputable def radians (x : ℝ) : ℝ := x * (Real.pi / 180)

/-- Rounding to three decimals, as the source's round(x, 3).  Mathlib round
resolves ties upward while Python rounds ties to even; no property proved
here depends on a tie. -/
noncomputable def round3 (x : ℝ) : ℝ := ((round (x * 1000) : ℤ) : ℝ) / 1000

/-- Embeds calculate_distance over the reals, parametrised by the Earth
radius constant of constants.py (absent from src): the haversine great-circle
distance, rounded to three decimals. -/
noncomputable def calculate_distance (R lat1 lon1 lat2 lon2 : ℝ) : ℝ :=
  let a1 := radians lat1
  let b1 := radians lon1
  let a2 := radians lat2
  let b2 := radians lon2
  let haversine := Real.sin ((a2 - a1) / 2) ^ 2
    + Real.cos a1 * Real.cos a2 * Real.sin ((b2 - b1) / 2) ^ 2
  round3 (2 * R * Real.arcsin (Real.sqrt haversine))

/-- A distance oracle recording the one geometric fact the spec states for
every point, distance(a, a) = 0 (proved of calculate_distance in
calculate_distance_self); away from the diagonal it returns an arbitrary
positive value, on which no theorem below depends. -/
def distSelfZero : Dist := fun la lo la2 lo2 =>
  if la = la2 ∧ lo = lo2 then 0 else 1000

/-- Modelled from the spec: a concrete configuration instance with ascending
priority radii and ordered BCI thresholds, as the spec requires of the
constants in constants.py (absent from src); used only to instantiate
witnesses and counterexamples. -/
def refConfig : Config := ⟨25, 50, 100, 60, 70⟩

/-- Modelled from the spec: a concrete distance table keyed on the latitudes
of the reference bridges and inspectors, consistent with the radius
comparisons the spec's worked assignment and radius examples assert; used
only to instantiate witnesses. -/
def distRef : Dist := fun la _lo la2 _lo2 =>
  if la = la2 then 0 else
  if la = 43.167233 ∧ la2 = 43.20 then 7.1 else
  if la = 43.164531 ∧ la2 = 43.20 then 8.5 else
  if la = 45.036739 ∧ la2 = 43.20 then 217.8 else
  if la = 43.167233 ∧ la2 = 45.0368 then 216.7 else
  if la = 43.164531 ∧ la2 = 45.0368 then 224.9 else
  if la = 45.036739 ∧ la2 = 45.0368 then 0.338 else 999

/-- A record placed exactly at the point (43.20, -80.35) with current BCI 80,
used to exercise boundary behaviour of the radius and capacity logic. -/
def cexBridge1 : BridgeRecord :=
  { bridge1 with lat := 43.20, lon := -80.35, bcis := [80] }

/-- A second record at the same point with a different id. -/
def cexBridge2 : BridgeRecord :=
  { bridge2 with lat := 43.20, lon := -80.35, bcis := [80] }

/-! Helper lemmas. -/

/-- A Python-style boolean test written as an ite over a proposition is true
exactly when the proposition holds. -/
theorem ite_bool_eq_true {P : Prop} [Decidable P]
    (h : (if P then true else false) = true) : P := by
  by_cases hP : P
  · exact hP
  · simp [hP] at h

/-- The haversine argument of calculate_distance is symmetric in the two
points. -/
theorem sin_half_sub_sq_comm (x y : ℝ) :
    Real.sin ((x - y) / 2) ^ 2 = Real.sin ((y - x) / 2) ^ 2 := by
  rw [show (x - y) / 2 = -((y - x) / 2) by ring, Real.sin_neg, neg_sq]

/-- The distance of any point to itself is 0, for every Earth radius. -/
theorem calculate_distance_self (R lat lon : ℝ) :
    calculate_distance R lat lon lat lon = 0 := by
  simp only [calculate_distance, sub_self, zero_div, Real.sin_zero,
    ne_eq, OfNat.ofNat_ne_zero, not_false_eq_true, zero_pow, mul_zero,
    add_zero, Real.sqrt_zero, Real.arcsin_zero, round3]
  norm_num

/-- The source's distances are nonnegative for a nonnegative Earth radius:
the arcsine of a square root is nonnegative and rounding preserves the
sign. -/
theorem calculate_distance_nonneg (R lat1 lon1 lat2 lon2 : ℝ)
    (hR : 0 ≤ R) : 0 ≤ calculate_distance R lat1 lon1 lat2 lon2 := by
  have harc : 0 ≤ Real.arcsin (Real.sqrt (Real.sin ((radians lat2 - radians lat1) / 2) ^ 2
      + Real.cos (radians lat1) * Real.cos (radians lat2)
        * Real.sin ((radians lon2 - radians lon1) / 2) ^ 2)) :=
    Real.arcsin_nonneg.mpr (Real.sqrt_nonneg _)
  have hx : (0 : ℝ) ≤ 2 * R * Real.arcsin (Real.sqrt (Real.sin ((radians lat2 - radians lat1) / 2) ^ 2
      + Real.cos (radians lat1) * Real.cos (radians lat2)
        * Real.sin ((radians lon2 - radians lon1) / 2) ^ 2)) := by positivity
  simp only [calculate_distance, round3]
  have hfloor : (0 : ℤ) ≤ round ((2 * R * Real.arcsin (Real.sqrt (Real.sin ((radians lat2 - radians lat1) / 2) ^ 2
      + Real.cos (radians lat1) * Real.cos (radians lat2)
        * Real.sin ((radians lon2 - radians lon1) / 2) ^ 2))) * 1000) := by
    rw [round_eq]
    refine Int.floor_nonneg.mpr ?_
    nlinarith
  have hcast : (0 : ℝ) ≤ ((round ((2 * R * Real.arcsin (Real.sqrt (Real.sin ((radians lat2 - radians lat1) / 2) ^ 2
      + Real.cos (radians lat1) * Real.cos (radians lat2)
        * Real.sin ((radians lon2 - radians lon1) / 2) ^ 2))) * 1000) : ℤ) : ℝ) := by
    exact_mod_cast hfloor
  exact div_nonneg hcast (by norm_num)

/-! Claim theorems. -/

/-- Claim C9: calculate_distance is symmetric in its two coordinate pairs,
and the distance from any point to itself is 0, for every value of the Earth
radius constant. -/
theorem calculate_distance_symm_and_self :
    (∀ R lat1 lon1 lat2 lon2 : ℝ,
        calculate_distance R lat1 lon1 lat2 lon2
          = calculate_distance R lat2 lon2 lat1 lon1)
    ∧ (∀ R lat lon : ℝ, calculate_distance R lat lon lat lon = 0) := by
  constructor
  · intro R lat1 lon1 lat2 lon2
    simp only [calculate_distance]
    rw [sin_half_sub_sq_comm (radians lat2) (radians lat1),
        sin_half_sub_sq_comm (radians lon2) (radians lon1),
        mul_comm (Real.cos (radians lat1)) (Real.cos (radians lat2))]
  · intro R lat lon
    exact calculate_distance_self R lat lon

/-- Claim C4 (code bug): get_closest_bridge indexes the collection by the
bridge id itself when measuring distances; on the reference set it therefore
raises IndexError for the last id 3 (which satisfies the docstring's
precondition) and for the absent id 99, instead of returning the closest id
respectively the zero sentinel.  The crash happens before any distance is
computed, so the result is none for every distance oracle. -/
theorem get_closest_bridge_crashes_on_last_id :
    (∀ dist : Dist, get_closest_bridge dist THREE_BRIDGES 3 = none)
    ∧ (∀ dist : Dist, get_closest_bridge dist THREE_BRIDGES 99 = none) :=
  ⟨fun _ => rfl, fun _ => rfl⟩

/-- Claim C5 (code bug): get_average_bci divides by len(bcis) without the
short-circuit the spec and the docstring promise, so a present id with an
empty BCI history raises ZeroDivisionError (none); on the reference data it
does return the mean 2481/35 = 70.8857142857... for id 1 and 0 for the
absent id 8. -/
theorem get_average_bci_empty_history_error :
    get_average_bci [{ bridge1 with bcis := [] }] 1 = none
    ∧ get_average_bci THREE_BRIDGES 1 = some (2481 / 35)
    ∧ get_average_bci THREE_BRIDGES 8 = some 0 := by
  refine ⟨rfl, ?_, rfl⟩
  norm_num [get_average_bci, THREE_BRIDGES, bridge1]

/-- Claim C7 (code bug): format_length compares the whole record, not the
length cell, against the empty string, so the float() branch always runs and
an empty total_length cell raises ValueError (none) instead of mapping to
0.0; a nonempty numeric cell is parsed as a float. -/
theorem format_length_empty_cell_error :
    format_length "" = none ∧ format_length "65" = some 65 := by
  exact ⟨rfl, by decide⟩

/-- Claim C8: inspect_bridges rewrites exactly the records whose id is
listed, setting the inspection date and pushing the new BCI onto the front
of the history (the prior history shifted right, order unchanged), and every
other field and every other record is returned unchanged. -/
theorem inspect_bridges_update_and_frame :
    ∀ (data : List BridgeRecord) (ids : List ℤ) (date : String) (bci : ℚ)
      (i : ℕ),
      (inspect_bridges data ids date bci).get? i
        = (data.get? i).map (fun b =>
            if b.id ∈ ids
            then { b with lastInspected := date, bcis := bci :: b.bcis }
            else b) := by
  intro data ids date bci
  induction data with
  | nil => intro i; simp [inspect_bridges]
  | cons b bs ih =>
      intro i
      cases i with
      | zero => simp [inspect_bridges]
      | succ n => simpa [inspect_bridges] using ih n

/-- Claim C10: add_rehab never raises: it stores exactly the slice
year_string[6:10] (the first four characters after position 6, possibly
fewer or none) into the major or minor rehab field of the records whose id
matches, leaves their other fields and all other records unchanged, and
changes nothing for an absent id. -/
theorem add_rehab_slice_and_frame :
    (∀ s : String, pySlice s 6 10 = String.mk ((s.toList.drop 6).take 4))
    ∧ (∀ (data : List BridgeRecord) (bridge_id : ℤ) (ys : String)
        (rehab : Bool) (i : ℕ),
        (add_rehab data bridge_id ys rehab).get? i
          = (data.get? i).map (fun b =>
              if b.id = bridge_id
              then (if rehab then { b with lastMajor := pySlice ys 6 10 }
                    else { b with lastMinor := pySlice ys 6 10 })
              else b))
    ∧ (∀ (data : List BridgeRecord) (bridge_id : ℤ) (ys : String)
        (rehab : Bool),
        (∀ b ∈ data, b.id ≠ bridge_id) →
          add_rehab data bridge_id ys rehab = data) := by
  refine ⟨fun s => rfl, ?_, ?_⟩
  · intro data bridge_id ys rehab
    induction data with
    | nil => intro i; simp [add_rehab]
    | cons b bs ih =>
        intro i
        cases i with
        | zero => simp [add_rehab]
        | succ n => simpa [add_rehab] using ih n
  · intro data bridge_id ys rehab habsent
    induction data with
    | nil => rfl
    | cons b bs ih =>
        have hb : b.id ≠ bridge_id := habsent b (List.mem_cons_self b bs)
        have hbs := ih (fun x hx => habsent x (List.mem_cons_of_mem b hx))
        simp [add_rehab, hb, hbs]

/-- Witness for claim C10: adding a rehab year for the absent id 5 leaves
the reference data unchanged. -/
theorem add_rehab_slice_and_frame_witness :
    add_rehab THREE_BRIDGES 5 "09/15/2023" false = THREE_BRIDGES :=
  add_rehab_slice_and_frame.2.2 THREE_BRIDGES 5 "09/15/2023" false (by decide)

/-- Claim C6 (corrected): get_bridges_in_radius returns, in collection
order, exactly the ids of the records whose distance to the point is at
most the radius; when every distance is nonnegative (true of the source's
rounded haversine, see calculate_distance_nonneg) a negative radius yields
the empty list.  Radius 0, however, keeps any record at distance exactly 0,
so the claimed empty result for every non-positive radius fails (see the
counterexample). -/
theorem get_bridges_in_radius_characterization :
    ∀ (dist : Dist) (data : List BridgeRecord) (la lo r : ℚ),
      get_bridges_in_radius dist data la lo r
        = (data.filter (fun b => decide (dist b.lat b.lon la lo ≤ r))).map
            (fun b => b.id)
      ∧ ((∀ b ∈ data, 0 ≤ dist b.lat b.lon la lo) → r < 0 →
          get_bridges_in_radius dist data la lo r = []) := by
  intro dist data la lo r
  have key : ∀ ds : List BridgeRecord,
      in_radius_go dist la lo r ds
        = (ds.filter (fun b => decide (dist b.lat b.lon la lo ≤ r))).map
            (fun b => b.id) := by
    intro ds
    induction ds with
    | nil => rfl
    | cons b bs ih =>
        by_cases h : dist b.lat b.lon la lo ≤ r
        · simp [in_radius_go, h, ih]
        · simp [in_radius_go, h, ih]
  refine ⟨key data, fun hnn hr => ?_⟩
  have hall : ∀ b ∈ data, ¬ (dist b.lat b.lon la lo ≤ r) := by
    intro b hb hle
    exact absurd (le_trans (hnn b hb) hle) (not_le.mpr hr)
  show in_radius_go dist la lo r data = []
  rw [key data]
  simp only [List.map_eq_nil_iff, List.filter_eq_nil_iff]
  intro b hb
  simpa using hall b hb

/-- Witness for claim C6: with the nonnegative oracle distSelfZero and the
negative radius -50, the reference search point of the spec yields no
bridges. -/
theorem get_bridges_in_radius_characterization_witness :
    get_bridges_in_radius distSelfZero THREE_BRIDGES 43.10 (-80.15) (-50)
      = [] := by
  refine (get_bridges_in_radius_characterization distSelfZero THREE_BRIDGES
      43.10 (-80.15) (-50)).2 ?_ (by norm_num)
  intro b hb
  simp only [THREE_BRIDGES, List.mem_cons, List.not_mem_nil, or_false] at hb
  rcases hb with rfl | rfl | rfl <;>
    norm_num [distSelfZero, bridge1, bridge2, bridge3]

/-- Counterexample for claim C6: a record lying exactly at the query point
has distance 0 (distance of a point to itself is 0, see
calculate_distance_self), so the radius 0 search returns its id and not the
empty list the claim asserts for every non-positive radius. -/
theorem get_bridges_in_radius_zero_radius_counterexample :
    get_bridges_in_radius distSelfZero [cexBridge1] 43.20 (-80.35) 0 = [1]
    ∧ get_bridges_in_radius distSelfZero [cexBridge1] 43.20 (-80.35) 0
        ≠ [] := by
  have h : get_bridges_in_radius distSelfZero [cexBridge1] 43.20 (-80.35) 0
      = [1] := by
    norm_num [get_bridges_in_radius, in_radius_go, distSelfZero, cexBridge1,
      bridge1]
  exact ⟨h, by rw [h]; exact List.cons_ne_nil 1 []⟩

/-- Membership in the high-priority tier implies membership in the current
pool of unassigned ids. -/
theorem hp_pred_mem_pool {dist : Dist} {cfg : Config}
    {data : List BridgeRecord} {ilat ilon : ℚ} {pool : List ℤ}
    {b : BridgeRecord}
    (h : hp_pred dist cfg data ilat ilon pool b = true) : b.id ∈ pool := by
  unfold hp_pred at h
  exact (ite_bool_eq_true h).1

/-- Membership in the medium-priority tier implies membership in the pool. -/
theorem mp_pred_mem_pool {dist : Dist} {cfg : Config}
    {data : List BridgeRecord} {ilat ilon : ℚ} {pool : List ℤ}
    {b : BridgeRecord}
    (h : mp_pred dist cfg data ilat ilon pool b = true) : b.id ∈ pool := by
  unfold mp_pred at h
  exact (ite_bool_eq_true h).1

/-- Membership in the low-priority tier implies membership in the pool. -/
theorem lp_pred_mem_pool {dist : Dist} {cfg : Config}
    {data : List BridgeRecord} {ilat ilon : ℚ} {pool : List ℤ}
    {b : BridgeRecord}
    (h : lp_pred dist cfg data ilat ilon pool b = true) : b.id ∈ pool := by
  unfold lp_pred at h
  exact (ite_bool_eq_true h).1

/-- Every candidate record of one inspector's turn is still in the pool. -/
theorem mem_stepCandidates_pool {dist : Dist} {cfg : Config}
    {data : List BridgeRecord} {pool : List ℤ} {ilat ilon : ℚ}
    {b : BridgeRecord}
    (h : b ∈ stepCandidates dist cfg data pool ilat ilon) : b.id ∈ pool := by
  unfold stepCandidates at h
  rcases List.mem_append.1 h with h' | h'
  · rcases List.mem_append.1 h' with h'' | h''
    · exact hp_pred_mem_pool (List.mem_filter.1 h'').2
    · exact mp_pred_mem_pool (List.mem_filter.1 h'').2
  · exact lp_pred_mem_pool (List.mem_filter.1 h').2

/-- A Python slice lst[:k] only contains elements of lst. -/
theorem pySliceTo_subset {α : Type} {l : List α} {k : ℤ} :
    pySliceTo l k ⊆ l := by
  unfold pySliceTo
  split
  · exact List.take_subset _ _
  · exact List.take_subset _ _

/-- The ids one inspector receives all come from the current pool. -/
theorem assign_step_fst_subset {dist : Dist} {cfg : Config}
    {data : List BridgeRecord} {maxB : ℤ} {pool : List ℤ} {insp : ℚ × ℚ} :
    ∀ x ∈ (assign_step dist cfg data maxB pool insp).1, x ∈ pool := by
  intro x hx
  unfold assign_step at hx
  simp only [List.mem_map] at hx
  obtain ⟨b, hb, rfl⟩ := hx
  exact mem_stepCandidates_pool (pySliceTo_subset hb)

/-- The pool after one inspector's turn: still in the old pool and not among
the ids just assigned. -/
theorem assign_step_snd_spec {dist : Dist} {cfg : Config}
    {data : List BridgeRecord} {maxB : ℤ} {pool : List ℤ} {insp : ℚ × ℚ}
    {x : ℤ} :
    x ∈ (assign_step dist cfg data maxB pool insp).2 ↔
      x ∈ pool ∧ x ∉ (assign_step dist cfg data maxB pool insp).1 := by
  unfold assign_step
  simp [List.mem_filter]

/-- Every id appearing in any list produced by the assignment loop belongs
to the pool the loop started from. -/
theorem assign_loop_mem_pool {dist : Dist} {cfg : Config}
    {data : List BridgeRecord} {maxB : ℤ} :
    ∀ (insps : List (ℚ × ℚ)) (pool : List ℤ) (L : List ℤ),
      L ∈ assign_loop dist cfg data maxB insps pool → ∀ x ∈ L, x ∈ pool := by
  intro insps
  induction insps with
  | nil =>
      intro pool L hL
      simp [assign_loop] at hL
  | cons insp rest ih =>
      intro pool L hL x hx
      rcases List.mem_cons.1 hL with rfl | hL'
      · exact assign_step_fst_subset x hx
      · exact (assign_step_snd_spec.1 (ih _ L hL' x hx)).1

/-- Claim C2: the assignments returned by assign_inspectors are pairwise
disjoint for every distance oracle, configuration, collection, inspector
sequence and capacity: an id assigned to one inspector never reappears for
any later inspector. -/
theorem assign_inspectors_pairwise_disjoint :
    ∀ (dist : Dist) (cfg : Config) (data : List BridgeRecord)
      (inspectors : List (ℚ × ℚ)) (max_bridges : ℤ),
      List.Pairwise (fun A B => ∀ x, x ∈ A → x ∉ B)
        (assign_inspectors dist cfg data inspectors max_bridges) := by
  intro dist cfg data insps maxB
  unfold assign_inspectors
  generalize (data.map fun b => b.id) = pool
  induction insps generalizing pool with
  | nil => simp [assign_loop]
  | cons insp rest ih =>
      rw [assign_loop, List.pairwise_cons]
      refine ⟨?_, ih _⟩
      intro L hL x hxA hxL
      exact (assign_step_snd_spec.1
        (assign_loop_mem_pool rest _ L hL x hxL)).2 hxA

/-- Witness for claim C2: the disjointness invariant at the reference
instance. -/
theorem assign_inspectors_pairwise_disjoint_witness :
    List.Pairwise (fun A B => ∀ x, x ∈ A → x ∉ B)
      (assign_inspectors distSelfZero refConfig THREE_BRIDGES
        [((43.20 : ℚ), (-80.35 : ℚ)), ((45.0368 : ℚ), (-81.34 : ℚ))] 2) :=
  assign_inspectors_pairwise_disjoint distSelfZero refConfig THREE_BRIDGES
    [((43.20 : ℚ), (-80.35 : ℚ)), ((45.0368 : ℚ), (-81.34 : ℚ))] 2

/-- Slicing with 0 yields the empty list. -/
theorem pySliceTo_zero {α : Type} (l : List α) : pySliceTo l 0 = [] := by
  simp [pySliceTo]

/-- For a nonnegative bound the Python slice lst[:k] is List.take. -/
theorem pySliceTo_of_nonneg {α : Type} (l : List α) {k : ℤ} (h : 0 ≤ k) :
    pySliceTo l k = l.take k.toNat := by
  simp [pySliceTo, h]

/-- Claim C3 (corrected): each inspector's assignment is the Python slice
[:max_bridges] of the concatenated tier list.  For a nonnegative capacity
this is the first max_bridges candidates: capacity 0 gives every inspector
the empty assignment, and when fewer candidates exist than the capacity all
of them are taken.  A negative capacity, however, follows Python slice
semantics and keeps all but the last -max_bridges candidates instead of
being empty (see the counterexample). -/
theorem assign_inspectors_slice_semantics :
    (∀ (dist : Dist) (cfg : Config) (data : List BridgeRecord) (maxB : ℤ)
        (pool : List ℤ) (insp : ℚ × ℚ),
        (assign_step dist cfg data maxB pool insp).1
          = (pySliceTo (stepCandidates dist cfg data pool insp.1 insp.2)
              maxB).map (fun b => b.id))
    ∧ (∀ (dist : Dist) (cfg : Config) (data : List BridgeRecord)
        (insps : List (ℚ × ℚ)),
        assign_inspectors dist cfg data insps 0 = insps.map (fun _ => []))
    ∧ (∀ (dist : Dist) (cfg : Config) (data : List BridgeRecord)
        (insps : List (ℚ × ℚ)) (maxB : ℤ), 0 ≤ maxB →
        ∀ L ∈ assign_inspectors dist cfg data insps maxB,
          L.length ≤ maxB.toNat)
    ∧ (∀ (dist : Dist) (cfg : Config) (data : List BridgeRecord) (maxB : ℤ)
        (pool : List ℤ) (insp : ℚ × ℚ), 0 ≤ maxB →
        (stepCandidates dist cfg data pool insp.1 insp.2).length
          ≤ maxB.toNat →
        (assign_step dist cfg data maxB pool insp).1
          = (stepCandidates dist cfg data pool insp.1 insp.2).map
              (fun b => b.id)) := by
  refine ⟨fun _ _ _ _ _ _ => rfl, ?_, ?_, ?_⟩
  · intro dist cfg data insps
    unfold assign_inspectors
    have key : ∀ (insps' : List (ℚ × ℚ)) (pool : List ℤ),
        assign_loop dist cfg data 0 insps' pool
          = insps'.map (fun _ => []) := by
      intro insps'
      induction insps' with
      | nil => intro pool; rfl
      | cons insp rest ih =>
          intro pool
          have hfst : (assign_step dist cfg data 0 pool insp).1 = [] := by
            unfold assign_step
            simp [pySliceTo_zero]
          have hsnd : (assign_step dist cfg data 0 pool insp).2 = pool := by
            unfold assign_step
            simp [pySliceTo_zero]
          rw [assign_loop, hfst, hsnd, ih pool, List.map]
    exact key insps _
  · intro dist cfg data insps maxB h
    unfold assign_inspectors
    have key : ∀ (insps' : List (ℚ × ℚ)) (pool : List ℤ),
        ∀ L ∈ assign_loop dist cfg data maxB insps' pool,
          L.length ≤ maxB.toNat := by
      intro insps'
      induction insps' with
      | nil => intro pool L hL; simp [assign_loop] at hL
      | cons insp rest ih =>
          intro pool L hL
          rcases List.mem_cons.1 hL with rfl | hL'
          · show ((pySliceTo (stepCandidates dist cfg data pool insp.1
                insp.2) maxB).map (fun b => b.id)).length ≤ maxB.toNat
            rw [List.length_map, pySliceTo_of_nonneg _ h, List.length_take]
            exact min_le_left _ _
          · exact ih _ L hL'
    exact key insps _
  · intro dist cfg data maxB pool insp h hlen
    show (pySliceTo (stepCandidates dist cfg data pool insp.1 insp.2)
        maxB).map (fun b => b.id) = _
    rw [pySliceTo_of_nonneg _ h, List.take_of_length_le hlen]

/-- Witness for claim C3: one bridge co-located with the inspector and
capacity 5 exceed the candidate count, so the whole candidate list is
taken. -/
theorem assign_inspectors_slice_semantics_witness :
    (assign_step distSelfZero refConfig [cexBridge1] 5 [1]
        ((43.20 : ℚ), (-80.35 : ℚ))).1
      = (stepCandidates distSelfZero refConfig [cexBridge1] [1]
          (43.20 : ℚ) (-80.35 : ℚ)).map (fun b => b.id) := by
  refine assign_inspectors_slice_semantics.2.2.2 distSelfZero refConfig
    [cexBridge1] 5 [1] (43.20, -80.35) (by norm_num) ?_
  norm_num [stepCandidates, hp_pred, mp_pred, lp_pred, get_bridges_in_radius,
    in_radius_go, bci0, distSelfZero, cexBridge1, bridge1, refConfig,
    not_in_assignments, List.filter]

/-- Counterexample for claim C3: with capacity -1 and two co-located
candidate bridges, the Python slice [:-1] keeps the first candidate, so the
inspector's assignment is [1] and not the empty list the claim asserts for
every negative capacity. -/
theorem assign_inspectors_negative_capacity_counterexample :
    assign_inspectors distSelfZero refConfig [cexBridge1, cexBridge2]
        [((43.20 : ℚ), (-80.35 : ℚ))] (-1) = [[1]]
    ∧ assign_inspectors distSelfZero refConfig [cexBridge1, cexBridge2]
        [((43.20 : ℚ), (-80.35 : ℚ))] (-1) ≠ [[]] := by
  have h : assign_inspectors distSelfZero refConfig [cexBridge1, cexBridge2]
      [((43.20 : ℚ), (-80.35 : ℚ))] (-1) = [[1]] := by
    norm_num [assign_inspectors, assign_loop, assign_step, stepCandidates,
      hp_pred, mp_pred, lp_pred, get_bridges_in_radius, in_radius_go, bci0,
      distSelfZero, pySliceTo, cexBridge1, cexBridge2, refConfig,
      not_in_assignments, bridge1, bridge2, List.filter]
  refine ⟨h, ?_⟩
  rw [h]
  simp

/-- Claim C1: assign_inspectors builds each inspector's candidate list as
the three BCI tier comprehensions over the still-unassigned bridges within
the three radii, concatenated high, then medium, then low; the tiers are
mutually exclusive whenever the thresholds are ordered, each tier preserves
collection order (it is a sublist of the collection), and for the two
reference inspectors with capacity 2 over the reference set the result is
[[1, 2], [3]] under the radius comparisons the spec's worked example fixes
(the configuration constants live in constants.py, absent from src, so they
enter as hypotheses). -/
theorem assign_inspectors_tiers_and_reference_example
    (dist : Dist) (cfg : Config)
    (h_ord : cfg.hp_bci ≤ cfg.mp_bci)
    (hmp_lt : cfg.mp_bci < 71.5)
    (hd11 : dist 43.167233 (-80.275567) 43.20 (-80.35) ≤ cfg.lp_radius)
    (hd12 : dist 43.164531 (-80.251582) 43.20 (-80.35) ≤ cfg.lp_radius)
    (hd13 : ¬ dist 45.036739 (-81.33579) 43.20 (-80.35) ≤ cfg.lp_radius)
    (hd21 : ¬ dist 43.167233 (-80.275567) 45.0368 (-81.34) ≤ cfg.lp_radius)
    (hd22 : ¬ dist 43.164531 (-80.251582) 45.0368 (-81.34) ≤ cfg.lp_radius)
    (hd23 : dist 45.036739 (-81.33579) 45.0368 (-81.34) ≤ cfg.lp_radius) :
    (∀ (data : List BridgeRecord) (pool : List ℤ) (ilat ilon : ℚ),
        stepCandidates dist cfg data pool ilat ilon
          = data.filter (hp_pred dist cfg data ilat ilon pool)
            ++ data.filter (mp_pred dist cfg data ilat ilon pool)
            ++ data.filter (lp_pred dist cfg data ilat ilon pool))
    ∧ (∀ (data : List BridgeRecord) (pool : List ℤ) (ilat ilon : ℚ)
        (b : BridgeRecord),
        ¬ (hp_pred dist cfg data ilat ilon pool b = true
            ∧ mp_pred dist cfg data ilat ilon pool b = true)
        ∧ ¬ (mp_pred dist cfg data ilat ilon pool b = true
            ∧ lp_pred dist cfg data ilat ilon pool b = true)
        ∧ ¬ (hp_pred dist cfg data ilat ilon pool b = true
            ∧ lp_pred dist cfg data ilat ilon pool b = true))
    ∧ (∀ (data : List BridgeRecord) (pool : List ℤ) (ilat ilon : ℚ),
        (data.filter (hp_pred dist cfg data ilat ilon pool)).Sublist data
        ∧ (data.filter (mp_pred dist cfg data ilat ilon pool)).Sublist data
        ∧ (data.filter (lp_pred dist cfg data ilat ilon pool)).Sublist data)
    ∧ assign_inspectors dist cfg THREE_BRIDGES
        [((43.20 : ℚ), (-80.35 : ℚ)), ((45.0368 : ℚ), (-81.34 : ℚ))] 2
        = [[1, 2], [3]] := by
  refine ⟨fun _ _ _ _ => rfl, ?_, ?_, ?_⟩
  · intro data pool ilat ilon b
    refine ⟨?_, ?_, ?_⟩
    · rintro ⟨h1, h2⟩
      unfold hp_pred at h1
      unfold mp_pred at h2
      have p1 := (ite_bool_eq_true h1).2.2.2
      have p2 := (ite_bool_eq_true h2).2.2.2.1
      linarith
    · rintro ⟨h1, h2⟩
      unfold mp_pred at h1
      unfold lp_pred at h2
      have p1 := (ite_bool_eq_true h1).2.2.2.2
      have p2 := (ite_bool_eq_true h2).2.2.2
      linarith
    · rintro ⟨h1, h2⟩
      unfold hp_pred at h1
      unfold lp_pred at h2
      have p1 := (ite_bool_eq_true h1).2.2.2
      have p2 := (ite_bool_eq_true h2).2.2.2
      linarith
  · intro data pool ilat ilon
    exact ⟨List.filter_sublist data, List.filter_sublist data,
      List.filter_sublist data⟩
  · -- the reference example
    show assign_inspectors dist cfg [bridge1, bridge2, bridge3]
        [((43.20 : ℚ), (-80.35 : ℚ)), ((45.0368 : ℚ), (-81.34 : ℚ))] 2
        = [[1, 2], [3]]
    -- current BCI facts forced by the threshold hypotheses
    have hb1 : bci0 bridge1 = (72.3 : ℚ) := rfl
    have hb2 : bci0 bridge2 = (71.5 : ℚ) := rfl
    have hb3 : bci0 bridge3 = (85.1 : ℚ) := rfl
    have nb1hp : ¬ (bci0 bridge1 ≤ cfg.hp_bci) := by
      rw [hb1]; intro hle; linarith
    have nb2hp : ¬ (bci0 bridge2 ≤ cfg.hp_bci) := by
      rw [hb2]; intro hle; linarith
    have nb3hp : ¬ (bci0 bridge3 ≤ cfg.hp_bci) := by
      rw [hb3]; intro hle; linarith
    have nb1mp : ¬ (bci0 bridge1 ≤ cfg.mp_bci) := by
      rw [hb1]; intro hle; linarith
    have nb2mp : ¬ (bci0 bridge2 ≤ cfg.mp_bci) := by
      rw [hb2]; intro hle; linarith
    have nb3mp : ¬ (bci0 bridge3 ≤ cfg.mp_bci) := by
      rw [hb3]; intro hle; linarith
    have lb1 : cfg.mp_bci < bci0 bridge1 := by rw [hb1]; linarith
    have lb2 : cfg.mp_bci < bci0 bridge2 := by rw [hb2]; linarith
    have lb3 : cfg.mp_bci < bci0 bridge3 := by rw [hb3]; linarith
    -- the low-priority radius lists of the two inspectors
    have e1 : get_bridges_in_radius dist [bridge1, bridge2, bridge3]
        43.20 (-80.35) cfg.lp_radius = [1, 2] := by
      show in_radius_go dist 43.20 (-80.35) cfg.lp_radius
          [bridge1, bridge2, bridge3] = [1, 2]
      simp only [in_radius_go, bridge1, bridge2, bridge3]
      rw [if_pos hd11, if_pos hd12, if_neg hd13]
    have e2 : get_bridges_in_radius dist [bridge1, bridge2, bridge3]
        45.0368 (-81.34) cfg.lp_radius = [3] := by
      show in_radius_go dist 45.0368 (-81.34) cfg.lp_radius
          [bridge1, bridge2, bridge3] = [3]
      simp only [in_radius_go, bridge1, bridge2, bridge3]
      rw [if_neg hd21, if_neg hd22, if_pos hd23]
    -- tier predicate values, first inspector, pool [1, 2, 3]
    have hpA1 : hp_pred dist cfg [bridge1, bridge2, bridge3] 43.20 (-80.35)
        [1, 2, 3] bridge1 = false := by
      unfold hp_pred
      exact if_neg (fun hcon => nb1hp hcon.2.2.2)
    have hpA2 : hp_pred dist cfg [bridge1, bridge2, bridge3] 43.20 (-80.35)
        [1, 2, 3] bridge2 = false := by
      unfold hp_pred
      exact if_neg (fun hcon => nb2hp hcon.2.2.2)
    have hpA3 : hp_pred dist cfg [bridge1, bridge2, bridge3] 43.20 (-80.35)
        [1, 2, 3] bridge3 = false := by
      unfold hp_pred
      exact if_neg (fun hcon => nb3hp hcon.2.2.2)
    have mpA1 : mp_pred dist cfg [bridge1, bridge2, bridge3] 43.20 (-80.35)
        [1, 2, 3] bridge1 = false := by
      unfold mp_pred
      exact if_neg (fun hcon => nb1mp hcon.2.2.2.2)
    have mpA2 : mp_pred dist cfg [bridge1, bridge2, bridge3] 43.20 (-80.35)
        [1, 2, 3] bridge2 = false := by
      unfold mp_pred
      exact if_neg (fun hcon => nb2mp hcon.2.2.2.2)
    have mpA3 : mp_pred dist cfg [bridge1, bridge2, bridge3] 43.20 (-80.35)
        [1, 2, 3] bridge3 = false := by
      unfold mp_pred
      exact if_neg (fun hcon => nb3mp hcon.2.2.2.2)
    have lpA1 : lp_pred dist cfg [bridge1, bridge2, bridge3] 43.20 (-80.35)
        [1, 2, 3] bridge1 = true := by
      unfold lp_pred
      refine if_pos ⟨by simp [bridge1], rfl, ?_, lb1⟩
      rw [e1]
      simp [bridge1]
    have lpA2 : lp_pred dist cfg [bridge1, bridge2, bridge3] 43.20 (-80.35)
        [1, 2, 3] bridge2 = true := by
      unfold lp_pred
      refine if_pos ⟨by simp [bridge2], rfl, ?_, lb2⟩
      rw [e1]
      simp [bridge2]
    have lpA3 : lp_pred dist cfg [bridge1, bridge2, bridge3] 43.20 (-80.35)
        [1, 2, 3] bridge3 = false := by
      unfold lp_pred
      refine if_neg (fun hcon => ?_)
      have hmem := hcon.2.2.1
      rw [e1] at hmem
      simp [bridge3] at hmem
    -- tier predicate values, second inspector, pool [3]
    have hpB1 : hp_pred dist cfg [bridge1, bridge2, bridge3] 45.0368 (-81.34)
        [3] bridge1 = false := by
      unfold hp_pred
      refine if_neg (fun hcon => ?_)
      have hmem := hcon.1
      simp [bridge1] at hmem
    have hpB2 : hp_pred dist cfg [bridge1, bridge2, bridge3] 45.0368 (-81.34)
        [3] bridge2 = false := by
      unfold hp_pred
      refine if_neg (fun hcon => ?_)
      have hmem := hcon.1
      simp [bridge2] at hmem
    have hpB3 : hp_pred dist cfg [bridge1, bridge2, bridge3] 45.0368 (-81.34)
        [3] bridge3 = false := by
      unfold hp_pred
      exact if_neg (fun hcon => nb3hp hcon.2.2.2)
    have mpB1 : mp_pred dist cfg [bridge1, bridge2, bridge3] 45.0368 (-81.34)
        [3] bridge1 = false := by
      unfold mp_pred
      refine if_neg (fun hcon => ?_)
      have hmem := hcon.1
      simp [bridge1] at hmem
    have mpB2 : mp_pred dist cfg [bridge1, bridge2, bridge3] 45.0368 (-81.34)
        [3] bridge2 = false := by
      unfold mp_pred
      refine if_neg (fun hcon => ?_)
      have hmem := hcon.1
      simp [bridge2] at hmem
    have mpB3 : mp_pred dist cfg [bridge1, bridge2, bridge3] 45.0368 (-81.34)
        [3] bridge3 = false := by
      unfold mp_pred
      exact if_neg (fun hcon => nb3mp hcon.2.2.2.2)
    have lpB1 : lp_pred dist cfg [bridge1, bridge2, bridge3] 45.0368 (-81.34)
        [3] bridge1 = false := by
      unfold lp_pred
      refine if_neg (fun hcon => ?_)
      have hmem := hcon.1
      simp [bridge1] at hmem
    have lpB2 : lp_pred dist cfg [bridge1, bridge2, bridge3] 45.0368 (-81.34)
        [3] bridge2 = false := by
      unfold lp_pred
      refine if_neg (fun hcon => ?_)
      have hmem := hcon.1
      simp [bridge2] at hmem
    have lpB3 : lp_pred dist cfg [bridge1, bridge2, bridge3] 45.0368 (-81.34)
        [3] bridge3 = true := by
      unfold lp_pred
      refine if_pos ⟨by simp [bridge3], rfl, ?_, lb3⟩
      rw [e2]
      simp [bridge3]
    -- candidates and steps
    have cands1 : stepCandidates dist cfg [bridge1, bridge2, bridge3]
        [1, 2, 3] 43.20 (-80.35) = [bridge1, bridge2] := by
      unfold stepCandidates
      simp [List.filter, hpA1, hpA2, hpA3, mpA1, mpA2, mpA3, lpA1, lpA2,
        lpA3]
    have cands2 : stepCandidates dist cfg [bridge1, bridge2, bridge3]
        [3] 45.0368 (-81.34) = [bridge3] := by
      unfold stepCandidates
      simp [List.filter, hpB1, hpB2, hpB3, mpB1, mpB2, mpB3, lpB1, lpB2,
        lpB3]
    have step1 : assign_step dist cfg [bridge1, bridge2, bridge3] 2 [1, 2, 3]
        ((43.20 : ℚ), (-80.35 : ℚ)) = ([1, 2], [3]) := by
      unfold assign_step
      simp only [cands1]
      rw [pySliceTo_of_nonneg _ (by norm_num : (0 : ℤ) ≤ 2)]
      simp [bridge1, bridge2, List.filter]
    have step2 : assign_step dist cfg [bridge1, bridge2, bridge3] 2 [3]
        ((45.0368 : ℚ), (-81.34 : ℚ)) = ([3], []) := by
      unfold assign_step
      simp only [cands2]
      rw [pySliceTo_of_nonneg _ (by norm_num : (0 : ℤ) ≤ 2)]
      simp [bridge3, List.filter]
    unfold assign_inspectors
    rw [show List.map (fun b => b.id) [bridge1, bridge2, bridge3]
        = ([1, 2, 3] : List ℤ) from rfl]
    simp only [assign_loop]
    rw [step1]
    simp only [Prod.fst, Prod.snd]
    rw [step2]

/-- Witness for claim C1: the reference distance table and configuration
satisfy the threshold and radius hypotheses, and the assignment over the
reference set is [[1, 2], [3]]. -/
theorem assign_inspectors_tiers_witness :
    assign_inspectors distRef refConfig THREE_BRIDGES
        [((43.20 : ℚ), (-80.35 : ℚ)), ((45.0368 : ℚ), (-81.34 : ℚ))] 2
      = [[1, 2], [3]] :=
  (assign_inspectors_tiers_and_reference_example distRef refConfig
    (by norm_num [refConfig]) (by norm_num [refConfig])
    (by norm_num [distRef, refConfig]) (by norm_num [distRef, refConfig])
    (by norm_num [distRef, refConfig]) (by norm_num [distRef, refConfig])
    (by norm_num [distRef, refConfig])
    (by norm_num [distRef, refConfig])).2.2.2

end Bridge
